import Mathlib

/-!
Verification of the TIGAS renderer/encoder core
(`src/native/renderer_encoder/src/{tigas_renderer.cpp, tigas_encoder.cpp, main.cpp}`).

Modelling conventions.
* C++ machine integers are modelled as `Int`/`Nat`; `static_cast<int>` of a
  floating value is truncation toward zero (`ratTrunc`).
* `float`/`double` arithmetic is modelled exactly over `ℚ`; the transcendental
  library calls (`std::cos`, `std::sin`, `std::exp`) are abstracted as function
  parameters (a `RealFuns` record, or a single `expf` parameter for the
  loader), since the code treats them as black boxes.
* Byte buffers are `List Nat` (each entry one byte value).
-/

namespace Tigas

/-- Model of `std::clamp` on integers: `v < lo ? lo : hi < v ? hi : v`. -/
def clampInt (v lo hi : Int) : Int :=
  if v < lo then lo else if hi < v then hi else v

/-- Model of `std::clamp` on rationals (models `std::clamp` on `float`). -/
def clampQ (v lo hi : ℚ) : ℚ :=
  if v < lo then lo else if hi < v then hi else v

/-- Model of `std::max` on rationals: returns `b` when `a < b`, else `a`. -/
def maxQ (a b : ℚ) : ℚ :=
  if a < b then b else a

/-- Truncation toward zero of a rational, the behaviour of
`static_cast<int>` on a floating value. -/
def ratTrunc (q : ℚ) : Int :=
  if q < 0 then -⌊-q⌋ else ⌊q⌋

/-- Model of `static_cast<uint8_t>` of a floating value that lies in `[0, 255]`. -/
def toByte (q : ℚ) : Nat :=
  (ratTrunc q).toNat

theorem clampQ_le_right (v lo hi : ℚ) (h : lo ≤ hi) : clampQ v lo hi ≤ hi := by
  unfold clampQ
  split
  · exact h
  · split
    · exact le_refl hi
    · next h2 => exact le_of_not_lt h2

theorem clampQ_left_le (v lo hi : ℚ) (h : lo ≤ hi) : lo ≤ clampQ v lo hi := by
  unfold clampQ
  split
  · exact le_refl lo
  · next h1 =>
    split
    · exact h
    · exact le_of_not_lt h1

theorem ratTrunc_eq_floor (q : ℚ) (h : 0 ≤ q) : ratTrunc q = ⌊q⌋ := by
  unfold ratTrunc
  exact if_neg (not_lt.mpr h)

/-- ASCII bytes of a string (everything emitted by the code is ASCII). -/
def strBytes (s : String) : List Nat :=
  s.toList.map Char.toNat

/-- Whether `b` starts with the byte sequence `pat`. -/
def bytesLeadWith : List Nat → List Nat → Bool
  | [], _ => true
  | _ :: _, [] => false
  | a :: as, b :: bs => a == b && bytesLeadWith as bs

/-- Whether `l` contains the byte sequence `pat` as a contiguous run. -/
def bytesContain (pat : List Nat) : List Nat → Bool
  | [] => bytesLeadWith pat []
  | b :: bs => bytesLeadWith pat (b :: bs) || bytesContain pat bs

theorem bytesLeadWith_append (pat t : List Nat) : bytesLeadWith pat (pat ++ t) = true := by
  induction pat with
  | nil => rfl
  | cons a as ih => simp [bytesLeadWith, ih]

theorem bytesContain_of_lead (pat l : List Nat) (h : bytesLeadWith pat l = true) :
    bytesContain pat l = true := by
  cases l with
  | nil => exact h
  | cons x xs =>
    unfold bytesContain
    rw [h]
    rfl

theorem bytesContain_of_append (pat a b : List Nat) :
    bytesContain pat (a ++ pat ++ b) = true := by
  induction a with
  | nil =>
    simpa using bytesContain_of_lead pat (pat ++ b) (bytesLeadWith_append pat b)
  | cons x xs ih =>
    simp only [List.cons_append]
    unfold bytesContain
    rw [ih]
    simp

/-! ### SEI construction (`tigas_encoder.cpp`, anonymous namespace) -/

/-- The codec identities this pipeline can resolve
(`AV_CODEC_ID_H264`, `AV_CODEC_ID_HEVC`, `AV_CODEC_ID_FFV1`). -/
inductive CodecId where
  | h264
  | hevc
  | ffv1
deriving DecidableEq

/-- Model of `FrameMetadata` (tigas_encoder.hpp): `frame_id : int`, `timestamp_ms : int64_t`. -/
structure FrameMetadata where
  frame_id : Int
  timestamp_ms : Int
deriving DecidableEq

/-- The SEI text `"frame_id=<N>;timestamp_ms=<T>"` built in
`build_sei_rbsp` / `build_sei_user_data_payload`. -/
def sei_text (m : FrameMetadata) : String :=
  "frame_id=" ++ toString m.frame_id ++ ";timestamp_ms=" ++ toString m.timestamp_ms

/-- The 16-byte UUID `"TIGAS-SEI-000001"` (array `sei_uuid` in the code). -/
def sei_uuid : List Nat :=
  [0x54, 0x49, 0x47, 0x41, 0x53, 0x2D, 0x53, 0x45, 0x49, 0x2D, 0x30, 0x30, 0x30, 0x30, 0x30, 0x31]

/-- The `while (remaining >= 255)` size-encoding loop of `build_sei_rbsp`:
emit `0xFF` while at least 255 remains, then the final remainder byte. -/
def sei_size_bytes (remaining : Nat) : List Nat :=
  if h : 255 ≤ remaining then 0xFF :: sei_size_bytes (remaining - 255) else [remaining]
termination_by remaining
decreasing_by omega

/-- Model of `build_sei_rbsp` (tigas_encoder.cpp:31-51). -/
def build_sei_rbsp (m : FrameMetadata) : List Nat :=
  let payload := strBytes (sei_text m)
  let payload_size := 16 + payload.length
  [5] ++ sei_size_bytes payload_size ++ sei_uuid ++ payload ++ [0x80]

/-- Model of `build_sei_user_data_payload` (tigas_encoder.cpp:53-62): raw side-data
payload, UUID followed by the text, with no type/size/trailing bits. -/
def build_sei_user_data_payload (m : FrameMetadata) : List Nat :=
  sei_uuid ++ strBytes (sei_text m)

/-- Model of `build_sei_nal_payload` (tigas_encoder.cpp:64-75). -/
def build_sei_nal_payload (m : FrameMetadata) (c : CodecId) : List Nat :=
  (if c = CodecId.hevc then [0x4E, 0x01] else [0x06]) ++ build_sei_rbsp m

/-- The four big-endian bytes of `static_cast<uint32_t>(n)`. -/
def be32 (n : Nat) : List Nat :=
  let len := n % 2 ^ 32
  [len / 2 ^ 24 % 256, len / 2 ^ 16 % 256, len / 2 ^ 8 % 256, len % 256]

/-- Model of `build_sei_nal_with_length` (tigas_encoder.cpp:77-88). -/
def build_sei_nal_with_length (m : FrameMetadata) (c : CodecId) : List Nat :=
  let nal := build_sei_nal_payload m c
  be32 nal.length ++ nal

/-- Model of `build_sei_nal_annexb` (tigas_encoder.cpp:90-97). -/
def build_sei_nal_annexb (m : FrameMetadata) (c : CodecId) : List Nat :=
  [0x00, 0x00, 0x00, 0x01] ++ build_sei_nal_payload m c

theorem sei_size_bytes_eq (n : Nat) :
    sei_size_bytes n = List.replicate (n / 255) 0xFF ++ [n % 255] := by
  induction n using Nat.strong_induction_on with
  | _ n ih =>
    unfold sei_size_bytes
    split
    · next h =>
      rw [ih (n - 255) (by omega)]
      have h1 : n / 255 = (n - 255) / 255 + 1 := by omega
      have h2 : n % 255 = (n - 255) % 255 := by omega
      rw [h1, h2, List.replicate_succ]
      simp
    · next h =>
      have h1 : n / 255 = 0 := by omega
      have h2 : n % 255 = n := by omega
      rw [h1, h2]
      simp

/-! ### Packet-level SEI injection (`tigas_encoder.cpp`) -/

/-- Model of `packet_is_annexb` (tigas_encoder.cpp:99-106): a packet shorter than four
bytes is not Annex-B; otherwise a leading `00 00 01` or `00 00 00 01`
start code marks Annex-B framing. -/
def packet_is_annexb (data : List Nat) : Bool :=
  if data.length < 4 then false
  else data.take 3 == [0x00, 0x00, 0x01] || data.take 4 == [0x00, 0x00, 0x00, 0x01]

/-- Model of `prepend_sei_packet` (tigas_encoder.cpp:108-137).  For a codec other than
H.264/HEVC the function returns without touching the packet; `alloc_ok`
models the `av_new_packet` allocation, whose failure also leaves the packet
unchanged. -/
def prepend_sei_packet (alloc_ok : Bool) (m : FrameMetadata) (c : CodecId)
    (data : List Nat) : List Nat :=
  if c = CodecId.h264 ∨ c = CodecId.hevc then
    if alloc_ok then
      (if packet_is_annexb data then build_sei_nal_annexb m c
       else build_sei_nal_with_length m c) ++ data
    else data
  else data

/-- Model of `attach_sei_side_data` (tigas_encoder.cpp:139-150): returns the
`AV_FRAME_DATA_SEI_UNREGISTERED` side data attached to the frame (if any)
and the boolean result.  `attach_ok` models the success of
`av_frame_new_side_data`; for a codec other than H.264/HEVC the function
returns `false` without attaching anything. -/
def attach_sei_side_data (attach_ok : Bool) (m : FrameMetadata) (c : CodecId) :
    Option (List Nat) × Bool :=
  if c = CodecId.h264 ∨ c = CodecId.hevc then
    if attach_ok then (some (build_sei_user_data_payload m), true) else (none, false)
  else (none, false)

/-- One packet as emitted by `VideoEncoder::encode_frame`: the frame side
data that travels with it (native SEI injection) and its byte payload. -/
structure EncodedPacket where
  side_data : Option (List Nat)
  data : List Nat
deriving DecidableEq

/-- The metadata path of `VideoEncoder::encode_frame` (tigas_encoder.cpp:
338-362) for one drained packet: attach side data to the frame; when that
did not succeed, prepend an SEI NAL to the packet bytes. -/
def encode_frame_packet (attach_ok alloc_ok : Bool) (m : FrameMetadata)
    (c : CodecId) (pkt : List Nat) : EncodedPacket :=
  let attached := attach_sei_side_data attach_ok m c
  if attached.2 then ⟨attached.1, pkt⟩
  else ⟨attached.1, prepend_sei_packet alloc_ok m c pkt⟩

/-- A packet carries a recoverable in-band record `frame_id=F;timestamp_ms=T`
when either the UUID+text payload rides as frame side data (native
injection) or the packet bytes contain the UUID+text sequence (prepended
SEI NAL). -/
def has_inband_record (m : FrameMetadata) (p : EncodedPacket) : Bool :=
  p.side_data == some (build_sei_user_data_payload m) ||
    bytesContain (build_sei_user_data_payload m) p.data

/-! ### PTS assignment and codec configuration (`tigas_encoder.cpp`) -/

/-- Model of `next_pts_(0)` in the `VideoEncoder` constructor (tigas_encoder.cpp:160). -/
def next_pts_init : Int := 0

/-- Model of `av_frame->pts = next_pts_++` (tigas_encoder.cpp:336): the pts assigned
for this call and the updated counter. -/
def encode_frame_pts (next_pts : Int) : Int × Int :=
  (next_pts, next_pts + 1)

/-- PTS values assigned by `n` successive `encode_frame` calls starting from
counter state `s`. -/
def pts_from (s : Int) : Nat → List Int
  | 0 => []
  | n + 1 => (encode_frame_pts s).1 :: pts_from (encode_frame_pts s).2 n

/-- PTS values assigned by the first `n` `encode_frame` calls of one
`VideoEncoder` instance. -/
def pts_trace (n : Nat) : List Int :=
  pts_from next_pts_init n

/-- Model of `EncodeConfig` (tigas_encoder.hpp). -/
structure EncodeConfig where
  codec : String
  fps : Int
  crf : Int
  lossless : Bool
  live_dash : Bool := false
  dash_window_size : Int := 5
deriving DecidableEq

/-- Model of `codec_ctx->time_base = AVRational{1, config.fps}` (tigas_encoder.cpp:196),
copied to the stream (`stream->time_base = codec_ctx->time_base`, line 232). -/
def configure_codec_time_base (cfg : EncodeConfig) : Int × Int :=
  (1, cfg.fps)

theorem pts_from_eq (n : Nat) (s : Int) :
    pts_from s n = (List.range n).map (fun k : Nat => s + (k : Int)) := by
  induction n generalizing s with
  | zero => rfl
  | succ n ih =>
    rw [pts_from, ih, List.range_succ_eq_map]
    simp only [encode_frame_pts, List.map_cons, List.map_map]
    congr 1
    · simp
    · apply List.map_congr_left
      intro k _
      simp only [Function.comp_apply, Nat.cast_succ]
      ring

/-! ### Encoder construction in `main` (`main.cpp`) -/

/-- The command-line state that decides which encoders `main` constructs. -/
structure MainArgs where
  crf : Int
  crf_ladder : List Int
  live_dash : Bool
deriving DecidableEq

/-- The lossless encoder of `main` (main.cpp:120-123): constructed (writing
`ground_truth_lossless.mkv`) only when live-DASH is off. -/
def lossless_encoder_path (a : MainArgs) : Option String :=
  if a.live_dash then none else some ("ground_truth_lossless.mkv")

/-- The ladder loop of `main` (main.cpp:127-136): `for (idx <
crf_ladder.size() && !live_dash)`, skipping entries equal to the base CRF,
each one writing `test_stream_lossy_p<idx>.mp4`. -/
def ladder_loop (a : MainArgs) : Nat → List Int → List String
  | _, [] => []
  | idx, c :: rest =>
    if a.live_dash then []
    else if c = a.crf then ladder_loop a (idx + 1) rest
    else ("test_stream_lossy_p" ++ toString idx ++ ".mp4") :: ladder_loop a (idx + 1) rest

/-- The output paths of the ladder encoders `main` constructs. -/
def ladder_encoder_paths (a : MainArgs) : List String :=
  ladder_loop a 0 a.crf_ladder

/-! ### PLY loader (`tigas_renderer.cpp`)

`GaussianRenderer::load_points` is modelled from the point where the header
has been read: a `PlyHeader` carries the validated format, the declared
`vertex_count` and the accumulated vertex properties, and the body is the
part of the file after `end_header`.  An ASCII body is the list of its
lines, each line the `float64` values produced by whitespace-splitting it
(`ss >> values[prop_idx]`; a missing token leaves the value `0.0`); the
empty list stands for a line that is empty after `trim_right` (the loop
skips it).  A binary body is the stream of scalar values decoded by
`read_scalar_binary`, one per property per vertex; an exhausted stream
models `!input.good()`. -/

/-- Model of `Point3D` (tigas_renderer.hpp). -/
structure Point3D where
  x : ℚ
  y : ℚ
  z : ℚ
  r : Nat
  g : Nat
  b : Nat
  opacity : ℚ
  radius : ℚ
deriving DecidableEq

/-- Model of `VertexProperty` (tigas_renderer.cpp:94-97). -/
structure VertexProperty where
  type : String
  name : String
deriving DecidableEq

/-- Model of `scalar_size_bytes` (tigas_renderer.cpp:34-48); `0` marks an
unsupported scalar type. -/
def scalar_size_bytes (t : String) : Nat :=
  if t = "char" ∨ t = "int8" ∨ t = "uchar" ∨ t = "uint8" then 1
  else if t = "short" ∨ t = "int16" ∨ t = "ushort" ∨ t = "uint16" then 2
  else if t = "int" ∨ t = "int32" ∨ t = "uint" ∨ t = "uint32" ∨ t = "float" ∨ t = "float32" then 4
  else if t = "double" ∨ t = "float64" then 8
  else 0

/-- The per-vertex local variables of the body loops
(tigas_renderer.cpp:250-264 and 307-321). -/
structure VertexFields where
  x : ℚ
  y : ℚ
  z : ℚ
  has_rgb : Bool
  r : Int
  g : Int
  b : Int
  has_dc : Bool
  dc0 : ℚ
  dc1 : ℚ
  dc2 : ℚ
  opacity_logit : ℚ
  scale0 : ℚ
  scale1 : ℚ
  scale2 : ℚ
deriving DecidableEq

/-- The initial values of the per-vertex variables: colors default to 255,
scales to `-1.5`, everything else to zero. -/
def default_vertex_fields : VertexFields :=
  ⟨0, 0, 0, false, 255, 255, 255, false, 0, 0, 0, 0, -1.5, -1.5, -1.5⟩

/-- The name-based assignment chain of the body loops
(tigas_renderer.cpp:266-299 and 323-362); both loops use only the property
NAME and the decoded value. -/
def apply_property (e : VertexFields) (nm : String) (v : ℚ) : VertexFields :=
  if nm = "x" then { e with x := v }
  else if nm = "y" then { e with y := v }
  else if nm = "z" then { e with z := v }
  else if nm = "red" ∨ nm = "r" then { e with has_rgb := true, r := ratTrunc v }
  else if nm = "green" ∨ nm = "g" then { e with has_rgb := true, g := ratTrunc v }
  else if nm = "blue" ∨ nm = "b" then { e with has_rgb := true, b := ratTrunc v }
  else if nm = "f_dc_0" then { e with has_dc := true, dc0 := v }
  else if nm = "f_dc_1" then { e with has_dc := true, dc1 := v }
  else if nm = "f_dc_2" then { e with has_dc := true, dc2 := v }
  else if nm = "opacity" then { e with opacity_logit := v }
  else if nm = "scale_0" then { e with scale0 := v }
  else if nm = "scale_1" then { e with scale1 := v }
  else if nm = "scale_2" then { e with scale2 := v }
  else e

/-- Fold the assignment chain over the (name, value) pairs of one vertex
record, in property declaration order. -/
def extract_vertex (pairs : List (String × ℚ)) : VertexFields :=
  pairs.foldl (fun e p => apply_property e p.1 p.2) default_vertex_fields

/-- Model of `sigmoid` (tigas_renderer.cpp:23-25), over the abstract `std::exp`. -/
def sigmoid (expf : ℚ → ℚ) (x : ℚ) : ℚ :=
  1 / (1 + expf (-x))

/-- Model of `kShC0 = 0.28209479177387814` (tigas_renderer.cpp:21). -/
def shC0 : ℚ := 0.28209479177387814

/-- Model of `make_point` (tigas_renderer.cpp:99-144). -/
def make_point (expf : ℚ → ℚ) (e : VertexFields) : Point3D :=
  let opacity := clampQ (sigmoid expf e.opacity_logit) 0.02 1
  let scale_avg := (e.scale0 + e.scale1 + e.scale2) / 3
  let radius := clampQ (expf scale_avg) 0.25 8
  if e.has_rgb then
    ⟨e.x, e.y, e.z, (clampInt e.r 0 255).toNat, (clampInt e.g 0 255).toNat,
      (clampInt e.b 0 255).toNat, opacity, radius⟩
  else if e.has_dc then
    ⟨e.x, e.y, e.z,
      toByte (clampQ (0.5 + shC0 * e.dc0) 0 1 * 255),
      toByte (clampQ (0.5 + shC0 * e.dc1) 0 1 * 255),
      toByte (clampQ (0.5 + shC0 * e.dc2) 0 1 * 255), opacity, radius⟩
  else
    ⟨e.x, e.y, e.z, 255, 255, 255, opacity, radius⟩

/-- The `values` array of the ASCII loop (tigas_renderer.cpp:245-248): one
`float64` per declared property, read by position, `0.0` when the line has
fewer tokens. -/
def ascii_vertex_values (nprops : Nat) (line : List ℚ) : List ℚ :=
  (List.range nprops).map (fun i => line.getD i 0)

/-- The point built from one non-empty ASCII body line. -/
def ascii_point (expf : ℚ → ℚ) (props : List VertexProperty) (line : List ℚ) : Point3D :=
  make_point expf
    (extract_vertex ((props.map (fun p => p.name)).zip (ascii_vertex_values props.length line)))

/-- The ASCII body loop (tigas_renderer.cpp:237-303):
`for (i = 0; i < vertex_count && getline; ++i)`, skipping lines that are
empty after `trim_right`.  Running out of lines ends the loop and the
points read so far are returned. -/
def parse_ascii_body (expf : ℚ → ℚ) (props : List VertexProperty) :
    Nat → List (List ℚ) → List Point3D
  | 0, _ => []
  | _ + 1, [] => []
  | n + 1, line :: rest =>
    if line = [] then parse_ascii_body expf props n rest
    else ascii_point expf props line :: parse_ascii_body expf props n rest

/-- One vertex of the binary loop (tigas_renderer.cpp:323-331): for each
property in order, fail on an unsupported scalar type
(`scalar_size_bytes == 0`) and fail when the stream is exhausted
(`!input.good()`); otherwise consume one decoded value. -/
def read_vertex_binary (props : List VertexProperty) (stream : List ℚ) :
    Option (List (String × ℚ) × List ℚ) :=
  match props with
  | [] => some ([], stream)
  | p :: rest =>
    if scalar_size_bytes p.type = 0 then none
    else
      match stream with
      | [] => none
      | v :: vs =>
        match read_vertex_binary rest vs with
        | none => none
        | some (pairs, leftover) => some ((p.name, v) :: pairs, leftover)

/-- The binary body loop (tigas_renderer.cpp:306-367): any failure inside it
returns the empty vector, discarding every point already read. -/
def parse_binary_aux (expf : ℚ → ℚ) (props : List VertexProperty) :
    Nat → List ℚ → Option (List Point3D)
  | 0, _ => some []
  | n + 1, stream =>
    match read_vertex_binary props stream with
    | none => none
    | some (pairs, rest) =>
      match parse_binary_aux expf props n rest with
      | none => none
      | some ps => some (make_point expf (extract_vertex pairs) :: ps)

def parse_binary_body (expf : ℚ → ℚ) (props : List VertexProperty)
    (n : Nat) (stream : List ℚ) : List Point3D :=
  (parse_binary_aux expf props n stream).getD []

/-- The format of a successfully parsed PLY header
(`format ascii 1.0` / `format binary_little_endian 1.0`). -/
inductive PlyFormat where
  | ascii
  | binaryLE
deriving DecidableEq

/-- The result of the header loop of `load_points`
(tigas_renderer.cpp:171-232). -/
structure PlyHeader where
  format : PlyFormat
  vertexCount : Int
  props : List VertexProperty
  hasListProperty : Bool
deriving DecidableEq

/-- The file body following `end_header`, interpreted per format. -/
inductive PlyBody where
  | asciiLines (lines : List (List ℚ))
  | binaryValues (vals : List ℚ)
deriving DecidableEq

/-- Model of `GaussianRenderer::load_points` after the header loop
(tigas_renderer.cpp:227-367): reject a non-positive vertex count, an empty
property list or a `property list` declaration, then parse the body in the
declared format.  A body of the wrong kind cannot arise from a real file
(the format decides how the bytes after `end_header` are read) and yields
nothing. -/
def load_points (expf : ℚ → ℚ) (hdr : PlyHeader) (body : PlyBody) : List Point3D :=
  if hdr.vertexCount ≤ 0 ∨ hdr.props.isEmpty ∨ hdr.hasListProperty then []
  else
    match hdr.format, body with
    | PlyFormat.ascii, PlyBody.asciiLines lines =>
      parse_ascii_body expf hdr.props hdr.vertexCount.toNat lines
    | PlyFormat.binaryLE, PlyBody.binaryValues vals =>
      parse_binary_body expf hdr.props hdr.vertexCount.toNat vals
    | _, _ => []

/-! ### CPU renderer (`tigas_renderer.cpp`)

The CUDA stub (`tigas_cuda_stub.cpp`) has `available() = false`, so
`use_cuda_` is false in this build and `GaussianRenderer::render` always
takes the CPU paths modelled here. -/

/-- The abstract transcendental library calls used by the renderer and the
loader (`std::cos`, `std::sin`, `std::exp`). -/
structure RealFuns where
  cos : ℚ → ℚ
  sin : ℚ → ℚ
  exp : ℚ → ℚ

/-- Model of `MovementSample` (tigas_trace.hpp). -/
structure MovementSample where
  frame_id : Int
  t_ms : Int
  duration_ms : Int
  x : ℚ
  y : ℚ
  z : ℚ
  angle : ℚ
  elevation : ℚ
  width : Int
  height : Int
deriving DecidableEq

/-- Model of `RGBFrame` (tigas_renderer.hpp). -/
structure RGBFrame where
  width : Int
  height : Int
  data : List Nat
deriving DecidableEq

/-- Model of `deg_to_rad` (tigas_renderer.cpp:17-19). -/
def deg_to_rad (d : ℚ) : ℚ :=
  d * 0.01745329251994329577

/-- The camera-space coordinates of one point after translation and the
Y-then-X rotation (tigas_renderer.cpp:398-405). -/
structure CamCoords where
  xz_x : ℚ
  yz_y : ℚ
  yz_z : ℚ
deriving DecidableEq

def camera_transform (F : RealFuns) (s : MovementSample) (yaw pitch : ℚ)
    (pt : Point3D) : CamCoords :=
  let tx := pt.x - s.x
  let ty := pt.y - s.y
  let tz := pt.z - s.z
  let xz_x := F.cos yaw * tx - F.sin yaw * tz
  let xz_z := F.sin yaw * tx + F.cos yaw * tz
  let yz_y := F.cos pitch * ty - F.sin pitch * xz_z
  let yz_z := F.sin pitch * ty + F.cos pitch * xz_z
  ⟨xz_x, yz_y, yz_z⟩

/-- The innermost splat loop body (tigas_renderer.cpp:424-441): composite
one pixel of the `radius_px` square, skipping offsets that land outside the
image. -/
def composite_pixel (F : RealFuns) (w h : Int) (px py : Int) (pt : Point3D)
    (depth_weight sigma2 : ℚ) (frame : RGBFrame) (off : Int × Int) : RGBFrame :=
  let x := px + off.1
  let y := py + off.2
  if x < 0 ∨ y < 0 ∨ w ≤ x ∨ h ≤ y then frame
  else
    let d2 : ℚ := ((off.1 * off.1 + off.2 * off.2 : Int) : ℚ)
    let gaussian := F.exp (-d2 / (2 * sigma2))
    let alpha := clampQ (gaussian * pt.opacity * depth_weight) 0 1
    let idx := ((y * w + x) * 3).toNat
    let base_r : ℚ := (frame.data.getD idx 0 : Nat)
    let base_g : ℚ := (frame.data.getD (idx + 1) 0 : Nat)
    let base_b : ℚ := (frame.data.getD (idx + 2) 0 : Nat)
    { frame with
      data :=
        ((frame.data.set idx (toByte (clampQ (base_r * (1 - alpha) + pt.r * alpha) 0 255))).set
            (idx + 1) (toByte (clampQ (base_g * (1 - alpha) + pt.g * alpha) 0 255))).set
          (idx + 2) (toByte (clampQ (base_b * (1 - alpha) + pt.b * alpha) 0 255)) }

/-- The offsets `-radius_px .. radius_px` in order. -/
def offset_range (r : Int) : List Int :=
  (List.range (2 * r + 1).toNat).map (fun k => (k : Int) - r)

/-- The `(oy outer, ox inner)` iteration of the splat square, as `(ox, oy)`
pairs in visit order. -/
def splat_offsets (r : Int) : List (Int × Int) :=
  (offset_range r).flatMap (fun oy => (offset_range r).map (fun ox => (ox, oy)))

/-- The per-point body of the CPU splat loop (tigas_renderer.cpp:397-443):
transform, cull on depth, project, cull on the image border, then composite
the splat square. -/
def splat_point (F : RealFuns) (s : MovementSample) (yaw pitch cx cy : ℚ)
    (w h : Int) (frame : RGBFrame) (pt : Point3D) : RGBFrame :=
  let c := camera_transform F s yaw pitch pt
  if c.yz_z ≤ 0.01 then frame
  else
    let fx : ℚ := (w : ℚ)
    let fy : ℚ := (h : ℚ)
    let px := ratTrunc (cx + c.xz_x / c.yz_z * fx * 0.5)
    let py := ratTrunc (cy - c.yz_y / c.yz_z * fy * 0.5)
    if px < 1 ∨ py < 1 ∨ w - 1 ≤ px ∨ h - 1 ≤ py then frame
    else
      let depth_weight := clampQ (2 / (1 + c.yz_z * c.yz_z)) 0.15 1
      let screen_radius := clampQ (pt.radius * fx / maxQ c.yz_z 0.05 * 0.05) 1 9
      let radius_px := ⌈screen_radius⌉
      let sigma2 := maxQ 0.5 (screen_radius * screen_radius * 0.5)
      (splat_offsets radius_px).foldl (composite_pixel F w h px py pt depth_weight sigma2) frame

/-- All pixels `(x, y)` in the row-major order of the fallback loops. -/
def pixel_list (w h : Int) : List (Int × Int) :=
  (List.range h.toNat).flatMap (fun y => (List.range w.toNat).map (fun x => ((x : Int), (y : Int))))

/-- The fallback-texture loop body (tigas_renderer.cpp:450-464). -/
def fallback_paint (F : RealFuns) (phase elev : ℚ) (w h : Int)
    (frame : RGBFrame) (p : Int × Int) : RGBFrame :=
  let nx : ℚ := (p.1 : ℚ) / (w : ℚ)
  let ny : ℚ := (p.2 : ℚ) / (h : ℚ)
  let r := F.sin ((nx + phase) * 3.1415926) * 0.5 + 0.5
  let g := F.cos ((ny + elev) * 3.1415926) * 0.5 + 0.5
  let b := F.sin ((nx + ny + phase) * 3.1415926) * 0.5 + 0.5
  let idx := ((p.2 * w + p.1) * 3).toNat
  { frame with
    data :=
      ((frame.data.set idx (toByte (clampQ r 0 1 * 255))).set
          (idx + 1) (toByte (clampQ g 0 1 * 255))).set
        (idx + 2) (toByte (clampQ b 0 1 * 255)) }

/-- The frame set up at the top of `render` (tigas_renderer.cpp:370-377):
clamped dimensions and a zero-filled buffer of `width * height * 3` bytes
(`std::vector::resize` value-initializes every byte to 0). -/
def init_frame (s : MovementSample) : RGBFrame :=
  let w := clampInt s.width 64 1280
  let h := clampInt s.height 64 720
  ⟨w, h, List.replicate (w * h * 3).toNat 0⟩

/-- Model of `GaussianRenderer::render` (tigas_renderer.cpp:370-467) on the CPU
paths: splat every loaded point into the zero frame, or paint the fallback
texture when no points are loaded. -/
def render (F : RealFuns) (points : List Point3D) (s : MovementSample) : RGBFrame :=
  let frame := init_frame s
  let w := frame.width
  let h := frame.height
  let yaw := deg_to_rad s.angle
  let pitch := deg_to_rad s.elevation
  let cx : ℚ := (w : ℚ) * 0.5
  let cy : ℚ := (h : ℚ) * 0.5
  if points ≠ [] then
    points.foldl (splat_point F s yaw pitch cx cy w h) frame
  else
    (pixel_list w h).foldl
      (fallback_paint F (0.6 * s.x + 0.4 * s.z + yaw) pitch w h) frame

/-! ### Frame-shape preservation lemmas -/

theorem composite_pixel_preserve (F : RealFuns) (w h px py : Int) (pt : Point3D)
    (dw s2 : ℚ) (frame : RGBFrame) (off : Int × Int) :
    (composite_pixel F w h px py pt dw s2 frame off).width = frame.width ∧
    (composite_pixel F w h px py pt dw s2 frame off).height = frame.height ∧
    (composite_pixel F w h px py pt dw s2 frame off).data.length = frame.data.length := by
  unfold composite_pixel
  dsimp only
  split
  · exact ⟨rfl, rfl, rfl⟩
  · refine ⟨rfl, rfl, ?_⟩
    simp [List.length_set]

theorem foldl_frame_preserve {α : Type} (f : RGBFrame → α → RGBFrame)
    (hf : ∀ fr a, (f fr a).width = fr.width ∧ (f fr a).height = fr.height ∧
      (f fr a).data.length = fr.data.length) :
    ∀ (l : List α) (fr : RGBFrame),
      (l.foldl f fr).width = fr.width ∧ (l.foldl f fr).height = fr.height ∧
        (l.foldl f fr).data.length = fr.data.length := by
  intro l
  induction l with
  | nil => exact fun fr => ⟨rfl, rfl, rfl⟩
  | cons a as ih =>
    intro fr
    have h1 := hf fr a
    have h2 := ih (f fr a)
    simp only [List.foldl_cons]
    exact ⟨h2.1.trans h1.1, h2.2.1.trans h1.2.1, h2.2.2.trans h1.2.2⟩

theorem splat_point_preserve (F : RealFuns) (s : MovementSample) (yaw pitch cx cy : ℚ)
    (w h : Int) (frame : RGBFrame) (pt : Point3D) :
    (splat_point F s yaw pitch cx cy w h frame pt).width = frame.width ∧
    (splat_point F s yaw pitch cx cy w h frame pt).height = frame.height ∧
    (splat_point F s yaw pitch cx cy w h frame pt).data.length = frame.data.length := by
  unfold splat_point
  dsimp only
  split
  · exact ⟨rfl, rfl, rfl⟩
  · split
    · exact ⟨rfl, rfl, rfl⟩
    · exact foldl_frame_preserve _ (fun fr a => composite_pixel_preserve F w h _ _ pt _ _ fr a) _ frame

theorem fallback_paint_preserve (F : RealFuns) (phase elev : ℚ) (w h : Int)
    (frame : RGBFrame) (p : Int × Int) :
    (fallback_paint F phase elev w h frame p).width = frame.width ∧
    (fallback_paint F phase elev w h frame p).height = frame.height ∧
    (fallback_paint F phase elev w h frame p).data.length = frame.data.length := by
  unfold fallback_paint
  dsimp only
  refine ⟨rfl, rfl, ?_⟩
  simp [List.length_set]

theorem render_preserve (F : RealFuns) (points : List Point3D) (s : MovementSample) :
    (render F points s).width = (init_frame s).width ∧
    (render F points s).height = (init_frame s).height ∧
    (render F points s).data.length = (init_frame s).data.length := by
  unfold render
  dsimp only
  split
  · exact foldl_frame_preserve _
      (fun fr pt => splat_point_preserve F s _ _ _ _ _ _ fr pt) points (init_frame s)
  · exact foldl_frame_preserve _
      (fun fr p => fallback_paint_preserve F _ _ _ _ fr p) _ (init_frame s)

/-- C2: for every `MovementSample` `s`, `GaussianRenderer::render(s)` returns
an `RGBFrame` whose width is `clamp(s.width, 64, 1280)`, whose height is
`clamp(s.height, 64, 720)` and whose data has length exactly
`3 * width * height`, with the buffer initialized to all zeros before any
compositing; non-positive sample dimensions clamp to 64. -/
theorem render_frame_contract (F : RealFuns) (points : List Point3D) (s : MovementSample) :
    (render F points s).width = clampInt s.width 64 1280 ∧
    (render F points s).height = clampInt s.height 64 720 ∧
    (render F points s).data.length =
      ((render F points s).width * (render F points s).height * 3).toNat ∧
    (init_frame s).data =
      List.replicate ((clampInt s.width 64 1280 * clampInt s.height 64 720 * 3).toNat) 0 ∧
    (s.width ≤ 0 → (render F points s).width = 64) ∧
    (s.height ≤ 0 → (render F points s).height = 64) := by
  obtain ⟨hw, hh, hl⟩ := render_preserve F points s
  have hiw : (init_frame s).width = clampInt s.width 64 1280 := rfl
  have hih : (init_frame s).height = clampInt s.height 64 720 := rfl
  have hil : (init_frame s).data =
      List.replicate ((clampInt s.width 64 1280 * clampInt s.height 64 720 * 3).toNat) 0 := rfl
  refine ⟨hw.trans hiw, hh.trans hih, ?_, hil, ?_, ?_⟩
  · rw [hl, hw.trans hiw, hh.trans hih, hil, List.length_replicate]
  · intro hneg
    rw [hw.trans hiw]
    unfold clampInt
    rw [if_pos (by omega)]
  · intro hneg
    rw [hh.trans hih]
    unfold clampInt
    rw [if_pos (by omega)]

/-- Witness for `render_frame_contract` at a sample with non-positive
dimensions. -/
theorem render_frame_contract_witness :
    ((-5 : Int) ≤ 0 ∧
      (render ⟨fun _ => 1, fun _ => 0, fun _ => 1⟩ []
        ⟨0, 0, 16, 0, 0, 0, 0, 0, -5, 0⟩).width = 64) ∧
    ((0 : Int) ≤ 0 ∧
      (render ⟨fun _ => 1, fun _ => 0, fun _ => 1⟩ []
        ⟨0, 0, 16, 0, 0, 0, 0, 0, -5, 0⟩).height = 64) :=
  ⟨⟨by decide,
      (render_frame_contract ⟨fun _ => 1, fun _ => 0, fun _ => 1⟩ []
        ⟨0, 0, 16, 0, 0, 0, 0, 0, -5, 0⟩).2.2.2.2.1 (by decide)⟩,
    ⟨by decide,
      (render_frame_contract ⟨fun _ => 1, fun _ => 0, fun _ => 1⟩ []
        ⟨0, 0, 16, 0, 0, 0, 0, 0, -5, 0⟩).2.2.2.2.2 (by decide)⟩⟩

/-- C8: in the CPU splat path, a point whose transformed depth `yz_z` is at
most `0.01` is culled before projection and leaves the frame unchanged. -/
theorem splat_point_culled (F : RealFuns) (s : MovementSample) (yaw pitch cx cy : ℚ)
    (w h : Int) (frame : RGBFrame) (pt : Point3D)
    (hcull : (camera_transform F s yaw pitch pt).yz_z ≤ 0.01) :
    splat_point F s yaw pitch cx cy w h frame pt = frame := by
  unfold splat_point
  dsimp only
  rw [if_pos hcull]

/-- Witness for `splat_point_culled`: a point at the camera origin has
`yz_z = 0` and is culled. -/
theorem splat_point_culled_witness :
    (camera_transform ⟨fun _ => 1, fun _ => 0, fun _ => 1⟩
        ⟨0, 0, 16, 0, 0, 0, 0, 0, 64, 64⟩ 0 0 ⟨0, 0, 0, 255, 255, 255, 1, 1⟩).yz_z ≤ 0.01 ∧
    splat_point ⟨fun _ => 1, fun _ => 0, fun _ => 1⟩ ⟨0, 0, 16, 0, 0, 0, 0, 0, 64, 64⟩
        0 0 32 32 64 64 ⟨64, 64, [7, 8, 9]⟩ ⟨0, 0, 0, 255, 255, 255, 1, 1⟩ = ⟨64, 64, [7, 8, 9]⟩ :=
  ⟨by norm_num [camera_transform],
    splat_point_culled ⟨fun _ => 1, fun _ => 0, fun _ => 1⟩ ⟨0, 0, 16, 0, 0, 0, 0, 0, 64, 64⟩
      0 0 32 32 64 64 ⟨64, 64, [7, 8, 9]⟩ ⟨0, 0, 0, 255, 255, 255, 1, 1⟩ (by norm_num [camera_transform])⟩

/-! ### Vertex-field bookkeeping lemmas -/

theorem apply_property_scale0 (e : VertexFields) (nm : String) (v : ℚ)
    (h : nm ≠ "scale_0") : (apply_property e nm v).scale0 = e.scale0 := by
  unfold apply_property
  by_cases h1 : nm = "x"
  · rw [if_pos h1]
  rw [if_neg h1]
  by_cases h2 : nm = "y"
  · rw [if_pos h2]
  rw [if_neg h2]
  by_cases h3 : nm = "z"
  · rw [if_pos h3]
  rw [if_neg h3]
  by_cases h4 : nm = "red" ∨ nm = "r"
  · rw [if_pos h4]
  rw [if_neg h4]
  by_cases h5 : nm = "green" ∨ nm = "g"
  · rw [if_pos h5]
  rw [if_neg h5]
  by_cases h6 : nm = "blue" ∨ nm = "b"
  · rw [if_pos h6]
  rw [if_neg h6]
  by_cases h7 : nm = "f_dc_0"
  · rw [if_pos h7]
  rw [if_neg h7]
  by_cases h8 : nm = "f_dc_1"
  · rw [if_pos h8]
  rw [if_neg h8]
  by_cases h9 : nm = "f_dc_2"
  · rw [if_pos h9]
  rw [if_neg h9]
  by_cases h10 : nm = "opacity"
  · rw [if_pos h10]
  rw [if_neg h10]
  by_cases h11 : nm = "scale_0"
  · exact absurd h11 h
  rw [if_neg h11]
  by_cases h12 : nm = "scale_1"
  · rw [if_pos h12]
  rw [if_neg h12]
  by_cases h13 : nm = "scale_2"
  · rw [if_pos h13]
  rw [if_neg h13]

theorem apply_property_scale1 (e : VertexFields) (nm : String) (v : ℚ)
    (h : nm ≠ "scale_1") : (apply_property e nm v).scale1 = e.scale1 := by
  unfold apply_property
  by_cases h1 : nm = "x"
  · rw [if_pos h1]
  rw [if_neg h1]
  by_cases h2 : nm = "y"
  · rw [if_pos h2]
  rw [if_neg h2]
  by_cases h3 : nm = "z"
  · rw [if_pos h3]
  rw [if_neg h3]
  by_cases h4 : nm = "red" ∨ nm = "r"
  · rw [if_pos h4]
  rw [if_neg h4]
  by_cases h5 : nm = "green" ∨ nm = "g"
  · rw [if_pos h5]
  rw [if_neg h5]
  by_cases h6 : nm = "blue" ∨ nm = "b"
  · rw [if_pos h6]
  rw [if_neg h6]
  by_cases h7 : nm = "f_dc_0"
  · rw [if_pos h7]
  rw [if_neg h7]
  by_cases h8 : nm = "f_dc_1"
  · rw [if_pos h8]
  rw [if_neg h8]
  by_cases h9 : nm = "f_dc_2"
  · rw [if_pos h9]
  rw [if_neg h9]
  by_cases h10 : nm = "opacity"
  · rw [if_pos h10]
  rw [if_neg h10]
  by_cases h11 : nm = "scale_0"
  · rw [if_pos h11]
  rw [if_neg h11]
  by_cases h12 : nm = "scale_1"
  · exact absurd h12 h
  rw [if_neg h12]
  by_cases h13 : nm = "scale_2"
  · rw [if_pos h13]
  rw [if_neg h13]

theorem apply_property_scale2 (e : VertexFields) (nm : String) (v : ℚ)
    (h : nm ≠ "scale_2") : (apply_property e nm v).scale2 = e.scale2 := by
  unfold apply_property
  by_cases h1 : nm = "x"
  · rw [if_pos h1]
  rw [if_neg h1]
  by_cases h2 : nm = "y"
  · rw [if_pos h2]
  rw [if_neg h2]
  by_cases h3 : nm = "z"
  · rw [if_pos h3]
  rw [if_neg h3]
  by_cases h4 : nm = "red" ∨ nm = "r"
  · rw [if_pos h4]
  rw [if_neg h4]
  by_cases h5 : nm = "green" ∨ nm = "g"
  · rw [if_pos h5]
  rw [if_neg h5]
  by_cases h6 : nm = "blue" ∨ nm = "b"
  · rw [if_pos h6]
  rw [if_neg h6]
  by_cases h7 : nm = "f_dc_0"
  · rw [if_pos h7]
  rw [if_neg h7]
  by_cases h8 : nm = "f_dc_1"
  · rw [if_pos h8]
  rw [if_neg h8]
  by_cases h9 : nm = "f_dc_2"
  · rw [if_pos h9]
  rw [if_neg h9]
  by_cases h10 : nm = "opacity"
  · rw [if_pos h10]
  rw [if_neg h10]
  by_cases h11 : nm = "scale_0"
  · rw [if_pos h11]
  rw [if_neg h11]
  by_cases h12 : nm = "scale_1"
  · rw [if_pos h12]
  rw [if_neg h12]
  by_cases h13 : nm = "scale_2"
  · exact absurd h13 h
  rw [if_neg h13]

theorem apply_property_opacity (e : VertexFields) (nm : String) (v : ℚ)
    (h : nm ≠ "opacity") : (apply_property e nm v).opacity_logit = e.opacity_logit := by
  unfold apply_property
  by_cases h1 : nm = "x"
  · rw [if_pos h1]
  rw [if_neg h1]
  by_cases h2 : nm = "y"
  · rw [if_pos h2]
  rw [if_neg h2]
  by_cases h3 : nm = "z"
  · rw [if_pos h3]
  rw [if_neg h3]
  by_cases h4 : nm = "red" ∨ nm = "r"
  · rw [if_pos h4]
  rw [if_neg h4]
  by_cases h5 : nm = "green" ∨ nm = "g"
  · rw [if_pos h5]
  rw [if_neg h5]
  by_cases h6 : nm = "blue" ∨ nm = "b"
  · rw [if_pos h6]
  rw [if_neg h6]
  by_cases h7 : nm = "f_dc_0"
  · rw [if_pos h7]
  rw [if_neg h7]
  by_cases h8 : nm = "f_dc_1"
  · rw [if_pos h8]
  rw [if_neg h8]
  by_cases h9 : nm = "f_dc_2"
  · rw [if_pos h9]
  rw [if_neg h9]
  by_cases h10 : nm = "opacity"
  · exact absurd h10 h
  rw [if_neg h10]
  by_cases h11 : nm = "scale_0"
  · rw [if_pos h11]
  rw [if_neg h11]
  by_cases h12 : nm = "scale_1"
  · rw [if_pos h12]
  rw [if_neg h12]
  by_cases h13 : nm = "scale_2"
  · rw [if_pos h13]
  rw [if_neg h13]

theorem apply_property_has_rgb (e : VertexFields) (nm : String) (v : ℚ)
    (h : nm ∉ (["red", "r", "green", "g", "blue", "b"] : List String)) :
    (apply_property e nm v).has_rgb = e.has_rgb := by
  unfold apply_property
  by_cases h1 : nm = "x"
  · rw [if_pos h1]
  rw [if_neg h1]
  by_cases h2 : nm = "y"
  · rw [if_pos h2]
  rw [if_neg h2]
  by_cases h3 : nm = "z"
  · rw [if_pos h3]
  rw [if_neg h3]
  by_cases h4 : nm = "red" ∨ nm = "r"
  · exfalso; rcases h4 with hx | hx <;> subst hx <;> simp at h
  rw [if_neg h4]
  by_cases h5 : nm = "green" ∨ nm = "g"
  · exfalso; rcases h5 with hx | hx <;> subst hx <;> simp at h
  rw [if_neg h5]
  by_cases h6 : nm = "blue" ∨ nm = "b"
  · exfalso; rcases h6 with hx | hx <;> subst hx <;> simp at h
  rw [if_neg h6]
  by_cases h7 : nm = "f_dc_0"
  · rw [if_pos h7]
  rw [if_neg h7]
  by_cases h8 : nm = "f_dc_1"
  · rw [if_pos h8]
  rw [if_neg h8]
  by_cases h9 : nm = "f_dc_2"
  · rw [if_pos h9]
  rw [if_neg h9]
  by_cases h10 : nm = "opacity"
  · rw [if_pos h10]
  rw [if_neg h10]
  by_cases h11 : nm = "scale_0"
  · rw [if_pos h11]
  rw [if_neg h11]
  by_cases h12 : nm = "scale_1"
  · rw [if_pos h12]
  rw [if_neg h12]
  by_cases h13 : nm = "scale_2"
  · rw [if_pos h13]
  rw [if_neg h13]

theorem extract_foldl_scale0 (pairs : List (String × ℚ)) (e : VertexFields)
    (h : ∀ p ∈ pairs, p.1 ≠ "scale_0") :
    (pairs.foldl (fun e p => apply_property e p.1 p.2) e).scale0 = e.scale0 := by
  induction pairs generalizing e with
  | nil => rfl
  | cons a as ih =>
    simp only [List.foldl_cons]
    rw [ih _ (fun p hp => h p (List.mem_cons_of_mem a hp)),
      apply_property_scale0 e a.1 a.2 (h a (List.mem_cons_self a as))]

theorem extract_foldl_scale1 (pairs : List (String × ℚ)) (e : VertexFields)
    (h : ∀ p ∈ pairs, p.1 ≠ "scale_1") :
    (pairs.foldl (fun e p => apply_property e p.1 p.2) e).scale1 = e.scale1 := by
  induction pairs generalizing e with
  | nil => rfl
  | cons a as ih =>
    simp only [List.foldl_cons]
    rw [ih _ (fun p hp => h p (List.mem_cons_of_mem a hp)),
      apply_property_scale1 e a.1 a.2 (h a (List.mem_cons_self a as))]

theorem extract_foldl_scale2 (pairs : List (String × ℚ)) (e : VertexFields)
    (h : ∀ p ∈ pairs, p.1 ≠ "scale_2") :
    (pairs.foldl (fun e p => apply_property e p.1 p.2) e).scale2 = e.scale2 := by
  induction pairs generalizing e with
  | nil => rfl
  | cons a as ih =>
    simp only [List.foldl_cons]
    rw [ih _ (fun p hp => h p (List.mem_cons_of_mem a hp)),
      apply_property_scale2 e a.1 a.2 (h a (List.mem_cons_self a as))]

theorem extract_foldl_opacity (pairs : List (String × ℚ)) (e : VertexFields)
    (h : ∀ p ∈ pairs, p.1 ≠ "opacity") :
    (pairs.foldl (fun e p => apply_property e p.1 p.2) e).opacity_logit = e.opacity_logit := by
  induction pairs generalizing e with
  | nil => rfl
  | cons a as ih =>
    simp only [List.foldl_cons]
    rw [ih _ (fun p hp => h p (List.mem_cons_of_mem a hp)),
      apply_property_opacity e a.1 a.2 (h a (List.mem_cons_self a as))]

theorem extract_foldl_has_rgb (pairs : List (String × ℚ)) (e : VertexFields)
    (h : ∀ p ∈ pairs, p.1 ∉ (["red", "r", "green", "g", "blue", "b"] : List String)) :
    (pairs.foldl (fun e p => apply_property e p.1 p.2) e).has_rgb = e.has_rgb := by
  induction pairs generalizing e with
  | nil => rfl
  | cons a as ih =>
    simp only [List.foldl_cons]
    rw [ih _ (fun p hp => h p (List.mem_cons_of_mem a hp)),
      apply_property_has_rgb e a.1 a.2 (h a (List.mem_cons_self a as))]

theorem make_point_opacity (expf : ℚ → ℚ) (e : VertexFields) :
    (make_point expf e).opacity = clampQ (sigmoid expf e.opacity_logit) 0.02 1 := by
  unfold make_point
  dsimp only
  split_ifs <;> rfl

theorem make_point_radius (expf : ℚ → ℚ) (e : VertexFields) :
    (make_point expf e).radius = clampQ (expf ((e.scale0 + e.scale1 + e.scale2) / 3)) 0.25 8 := by
  unfold make_point
  dsimp only
  split_ifs <;> rfl

theorem toByte_eq_floor (q : ℚ) (h : 0 ≤ q) : toByte q = (⌊q⌋).toNat := by
  unfold toByte
  rw [ratTrunc_eq_floor q h]

/-- C7: every point produced by the loader has
`opacity = clamp(sigmoid(raw opacity), 0.02, 1.0)` (hence in `[0.02, 1]`)
and `radius = clamp(exp(mean(scale_0, scale_1, scale_2)), 0.25, 8.0)`
(hence in `[0.25, 8]`); absent scale properties leave the mean at `-1.5`
and an absent opacity property leaves the raw value at `0`. -/
theorem loader_opacity_radius_contract (expf : ℚ → ℚ) (pairs : List (String × ℚ)) :
    (make_point expf (extract_vertex pairs)).opacity =
      clampQ (sigmoid expf (extract_vertex pairs).opacity_logit) 0.02 1 ∧
    0.02 ≤ (make_point expf (extract_vertex pairs)).opacity ∧
    (make_point expf (extract_vertex pairs)).opacity ≤ 1 ∧
    (make_point expf (extract_vertex pairs)).radius =
      clampQ (expf (((extract_vertex pairs).scale0 + (extract_vertex pairs).scale1 +
        (extract_vertex pairs).scale2) / 3)) 0.25 8 ∧
    0.25 ≤ (make_point expf (extract_vertex pairs)).radius ∧
    (make_point expf (extract_vertex pairs)).radius ≤ 8 ∧
    ((∀ p ∈ pairs, p.1 ≠ "scale_0" ∧ p.1 ≠ "scale_1" ∧ p.1 ≠ "scale_2") →
      ((extract_vertex pairs).scale0 + (extract_vertex pairs).scale1 +
        (extract_vertex pairs).scale2) / 3 = -1.5) ∧
    ((∀ p ∈ pairs, p.1 ≠ "opacity") → (extract_vertex pairs).opacity_logit = 0) := by
  refine ⟨make_point_opacity expf _, ?_, ?_, make_point_radius expf _, ?_, ?_, ?_, ?_⟩
  · rw [make_point_opacity]
    exact clampQ_left_le _ _ _ (by norm_num)
  · rw [make_point_opacity]
    exact clampQ_le_right _ _ _ (by norm_num)
  · rw [make_point_radius]
    exact clampQ_left_le _ _ _ (by norm_num)
  · rw [make_point_radius]
    exact clampQ_le_right _ _ _ (by norm_num)
  · intro h
    unfold extract_vertex
    rw [extract_foldl_scale0 pairs _ (fun p hp => (h p hp).1),
      extract_foldl_scale1 pairs _ (fun p hp => (h p hp).2.1),
      extract_foldl_scale2 pairs _ (fun p hp => (h p hp).2.2)]
    norm_num [default_vertex_fields]
  · intro h
    unfold extract_vertex
    rw [extract_foldl_opacity pairs _ h]
    rfl

/-- Witness for `loader_opacity_radius_contract` on a record with only an
`x` property. -/
theorem loader_opacity_radius_contract_witness :
    0.02 ≤ (make_point (fun _ => (2 : ℚ)) (extract_vertex [("x", 3)])).opacity ∧
    (((extract_vertex [("x", (3 : ℚ))]).scale0 + (extract_vertex [("x", (3 : ℚ))]).scale1 +
      (extract_vertex [("x", (3 : ℚ))]).scale2) / 3 = -1.5) ∧
    (extract_vertex [("x", (3 : ℚ))]).opacity_logit = 0 :=
  ⟨(loader_opacity_radius_contract (fun _ => 2) [("x", 3)]).2.1,
    (loader_opacity_radius_contract (fun _ => 2) [("x", 3)]).2.2.2.2.2.2.1 (by decide),
    (loader_opacity_radius_contract (fun _ => 2) [("x", 3)]).2.2.2.2.2.2.2 (by decide)⟩

/-- C6: a vertex record with none of the `red/green/blue` (or `r/g/b`)
properties whose DC spherical-harmonic fields are present gets each color
channel `⌊clamp(0.5 + C0 * dc_i, 0, 1) * 255⌋` with
`C0 = 0.28209479177387814`. -/
theorem dc_color_channels (expf : ℚ → ℚ) (pairs : List (String × ℚ))
    (hrgb : ∀ p ∈ pairs, p.1 ∉ (["red", "r", "green", "g", "blue", "b"] : List String))
    (hdc : (extract_vertex pairs).has_dc = true) :
    (make_point expf (extract_vertex pairs)).r =
      (⌊clampQ (0.5 + shC0 * (extract_vertex pairs).dc0) 0 1 * 255⌋).toNat ∧
    (make_point expf (extract_vertex pairs)).g =
      (⌊clampQ (0.5 + shC0 * (extract_vertex pairs).dc1) 0 1 * 255⌋).toNat ∧
    (make_point expf (extract_vertex pairs)).b =
      (⌊clampQ (0.5 + shC0 * (extract_vertex pairs).dc2) 0 1 * 255⌋).toNat := by
  have hnr : (extract_vertex pairs).has_rgb = false := extract_foldl_has_rgb pairs _ hrgb
  have hb : ∀ d : ℚ, (0 : ℚ) ≤ clampQ (0.5 + shC0 * d) 0 1 * 255 :=
    fun d => mul_nonneg (clampQ_left_le _ _ _ (by norm_num)) (by norm_num)
  unfold make_point
  dsimp only
  rw [hnr, hdc]
  simp only [Bool.false_eq_true, if_false, if_true]
  exact ⟨toByte_eq_floor _ (hb _), toByte_eq_floor _ (hb _), toByte_eq_floor _ (hb _)⟩

/-- Witness for `dc_color_channels` on a record carrying only DC color. -/
theorem dc_color_channels_witness :
    (extract_vertex [("f_dc_0", (1 : ℚ)), ("f_dc_1", 0), ("f_dc_2", -10)]).has_dc = true ∧
    (make_point (fun _ => 1)
        (extract_vertex [("f_dc_0", (1 : ℚ)), ("f_dc_1", 0), ("f_dc_2", -10)])).r =
      (⌊clampQ (0.5 + shC0 *
        (extract_vertex [("f_dc_0", (1 : ℚ)), ("f_dc_1", 0), ("f_dc_2", -10)]).dc0) 0 1 * 255⌋).toNat :=
  ⟨by decide,
    (dc_color_channels (fun _ => 1) [("f_dc_0", 1), ("f_dc_1", 0), ("f_dc_2", -10)]
      (by decide) (by decide)).1⟩

/-! ### Body-parsing lemmas -/

theorem read_vertex_binary_length (props : List VertexProperty) :
    ∀ (stream : List ℚ) (pairs : List (String × ℚ)) (rest : List ℚ),
      read_vertex_binary props stream = some (pairs, rest) →
      stream.length = props.length + rest.length := by
  induction props with
  | nil =>
    intro stream pairs rest h
    simp only [read_vertex_binary, Option.some_inj] at h
    cases h
    simp
  | cons p ps ih =>
    intro stream pairs rest h
    simp only [read_vertex_binary] at h
    split at h
    · exact absurd h (by simp)
    · cases stream with
      | nil => exact absurd h (by simp)
      | cons v vs =>
        simp only at h
        split at h
        · exact absurd h (by simp)
        · next pairs2 leftover heq =>
          have hlen := ih vs pairs2 leftover heq
          simp only [Option.some_inj] at h
          cases h
          simp only [List.length_cons]
          omega

theorem parse_binary_aux_some_length (expf : ℚ → ℚ) (props : List VertexProperty) :
    ∀ (n : Nat) (stream : List ℚ) (ps : List Point3D),
      parse_binary_aux expf props n stream = some ps →
      n * props.length ≤ stream.length := by
  intro n
  induction n with
  | zero => intro stream ps _; simp
  | succ n ih =>
    intro stream ps h
    simp only [parse_binary_aux] at h
    split at h
    · exact absurd h (by simp)
    · next pairs rest heq =>
      split at h
      · exact absurd h (by simp)
      · next ps2 heq2 =>
        have h1 := read_vertex_binary_length props stream pairs rest heq
        have h2 := ih rest ps2 heq2
        rw [h1, Nat.succ_mul]
        omega

theorem read_vertex_binary_unsupported (props : List VertexProperty)
    (hbad : ∃ p ∈ props, scalar_size_bytes p.type = 0) :
    ∀ stream : List ℚ, read_vertex_binary props stream = none := by
  induction props with
  | nil => exact absurd hbad (by simp)
  | cons p ps ih =>
    intro stream
    obtain ⟨q, hq, hq0⟩ := hbad
    rcases List.mem_cons.mp hq with hq | hq
    · subst hq
      simp only [read_vertex_binary, if_pos hq0]
    · simp only [read_vertex_binary]
      split
      · rfl
      · cases stream with
        | nil => rfl
        | cons v vs =>
          simp only [ih ⟨q, hq, hq0⟩ vs]

theorem parse_ascii_body_all (expf : ℚ → ℚ) (props : List VertexProperty) :
    ∀ (count : Nat) (lines : List (List ℚ)), lines.length ≤ count →
      parse_ascii_body expf props count lines =
        (lines.filter (fun l => decide (l ≠ []))).map (ascii_point expf props) := by
  intro count
  induction count with
  | zero =>
    intro lines hlen
    rw [List.length_eq_zero.mp (Nat.le_zero.mp hlen)]
    rfl
  | succ n ih =>
    intro lines hlen
    cases lines with
    | nil => rfl
    | cons l ls =>
      simp only [List.length_cons] at hlen
      have hls := ih ls (by omega)
      by_cases hl : l = []
      · subst hl
        simp only [parse_ascii_body, if_pos rfl, hls, List.filter_cons]
        norm_num
      · simp only [parse_ascii_body, if_neg hl, hls, List.filter_cons]
        rw [if_pos (by simpa using hl)]
        simp

/-- C3 counterexample: an ASCII PLY declaring two vertices whose body holds
only one line parses to a non-empty point list, refuting the claim that a
truncated body yields the empty vector in both formats. -/
theorem load_points_truncated_counterexample :
    load_points (fun _ => 1) ⟨PlyFormat.ascii, 2, [⟨"float", "x"⟩], false⟩
      (PlyBody.asciiLines [[1]]) ≠ [] := by
  decide

/-- C3 (amended): a body that ends before `vertex_count` complete records
yields the empty vector in the binary-little-endian format; in the ASCII
format the loader returns the points parsed from the lines that are
present (one per non-empty line). -/
theorem load_points_truncated (expf : ℚ → ℚ) (count : Int)
    (props : List VertexProperty) (stream : List ℚ) (lines : List (List ℚ))
    (hcount : 0 < count) (hprops : props ≠ []) :
    (stream.length < count.toNat * props.length →
      load_points expf ⟨PlyFormat.binaryLE, count, props, false⟩
        (PlyBody.binaryValues stream) = []) ∧
    ((lines.length : Int) ≤ count →
      load_points expf ⟨PlyFormat.ascii, count, props, false⟩
        (PlyBody.asciiLines lines) =
        (lines.filter (fun l => decide (l ≠ []))).map (ascii_point expf props)) := by
  have hguard : ¬(count ≤ 0 ∨ props.isEmpty = true ∨ false = true) := by
    push_neg
    refine ⟨by omega, ?_, by simp⟩
    simpa using hprops
  constructor
  · intro hshort
    unfold load_points
    rw [if_neg (by simpa using hguard)]
    simp only []
    unfold parse_binary_body
    cases h : parse_binary_aux expf props count.toNat stream with
    | none => rfl
    | some ps =>
      have := parse_binary_aux_some_length expf props count.toNat stream ps h
      omega
  · intro hlines
    unfold load_points
    rw [if_neg (by simpa using hguard)]
    simp only []
    exact parse_ascii_body_all expf props count.toNat lines (by omega)

/-- Witness for `load_points_truncated` with a one-property header, a
truncated binary stream and a truncated ASCII body. -/
theorem load_points_truncated_witness :
    load_points (fun _ => 1) ⟨PlyFormat.binaryLE, 2, [⟨"float", "x"⟩], false⟩
      (PlyBody.binaryValues [1]) = [] ∧
    load_points (fun _ => 1) ⟨PlyFormat.ascii, 2, [⟨"float", "x"⟩], false⟩
      (PlyBody.asciiLines [[1]]) =
      (([[(1 : ℚ)]]).filter (fun l => decide (l ≠ []))).map
        (ascii_point (fun _ => 1) [⟨"float", "x"⟩]) :=
  ⟨(load_points_truncated (fun _ => 1) 2 [⟨"float", "x"⟩] [1] [[1]]
      (by decide) (by decide)).1 (by decide),
    (load_points_truncated (fun _ => 1) 2 [⟨"float", "x"⟩] [1] [[1]]
      (by decide) (by decide)).2 (by decide)⟩

/-- C10: an unsupported scalar type in the vertex properties makes the
binary-little-endian loader return the empty vector, while the ASCII
loader ignores declared property types entirely — its result depends only
on the property names (each body line is whitespace-split into values by
position). -/
theorem loader_type_asymmetry (expf : ℚ → ℚ) (count : Int)
    (props props2 : List VertexProperty) (stream : List ℚ) (lines : List (List ℚ)) :
    (0 < count → (∃ p ∈ props, scalar_size_bytes p.type = 0) →
      load_points expf ⟨PlyFormat.binaryLE, count, props, false⟩
        (PlyBody.binaryValues stream) = []) ∧
    (props.map (fun p => p.name) = props2.map (fun p => p.name) →
      load_points expf ⟨PlyFormat.ascii, count, props, false⟩
        (PlyBody.asciiLines lines) =
      load_points expf ⟨PlyFormat.ascii, count, props2, false⟩
        (PlyBody.asciiLines lines)) := by
  constructor
  · intro hcount hbad
    have hprops : props ≠ [] := by
      obtain ⟨q, hq, _⟩ := hbad
      exact List.ne_nil_of_mem hq
    have hguard : ¬(count ≤ 0 ∨ props.isEmpty = true ∨ false = true) := by
      push_neg
      refine ⟨by omega, ?_, by simp⟩
      simpa using hprops
    unfold load_points
    rw [if_neg (by simpa using hguard)]
    simp only []
    unfold parse_binary_body
    obtain ⟨m, hm⟩ : ∃ m, count.toNat = m + 1 :=
      ⟨count.toNat - 1, by omega⟩
    rw [hm]
    simp only [parse_binary_aux, read_vertex_binary_unsupported props hbad stream]
    rfl
  · intro hnames
    have hlen : props.length = props2.length := by
      have := congrArg List.length hnames
      simpa using this
    have hpoint : ∀ line, ascii_point expf props line = ascii_point expf props2 line := by
      intro line
      unfold ascii_point
      rw [hnames, hlen]
    have hbody : ∀ (n : Nat) (ls : List (List ℚ)),
        parse_ascii_body expf props n ls = parse_ascii_body expf props2 n ls := by
      intro n
      induction n with
      | zero => intro ls; rfl
      | succ k ih =>
        intro ls
        cases ls with
        | nil => rfl
        | cons l ls2 =>
          simp only [parse_ascii_body]
          rw [ih ls2, hpoint l]
    have hEmpty : props.isEmpty = props2.isEmpty := by
      cases props <;> cases props2 <;> simp_all
    unfold load_points
    rw [hEmpty]
    split
    · rfl
    · simp only []
      exact hbody count.toNat lines

/-- Witness for `loader_type_asymmetry`: the same one-property header with
the unsupported type `int64` yields zero points as binary but loads as
ASCII exactly as it would with a supported type. -/
theorem loader_type_asymmetry_witness :
    load_points (fun _ => 1) ⟨PlyFormat.binaryLE, 1, [⟨"int64", "x"⟩], false⟩
      (PlyBody.binaryValues [1]) = [] ∧
    load_points (fun _ => 1) ⟨PlyFormat.ascii, 1, [⟨"int64", "x"⟩], false⟩
      (PlyBody.asciiLines [[1]]) =
    load_points (fun _ => 1) ⟨PlyFormat.ascii, 1, [⟨"float", "x"⟩], false⟩
      (PlyBody.asciiLines [[1]]) :=
  ⟨(loader_type_asymmetry (fun _ => 1) 1 [⟨"int64", "x"⟩] [⟨"float", "x"⟩] [1] [[1]]).1
      (by decide) ⟨⟨"int64", "x"⟩, by decide, by decide⟩,
    (loader_type_asymmetry (fun _ => 1) 1 [⟨"int64", "x"⟩] [⟨"float", "x"⟩] [1] [[1]]).2
      (by decide)⟩

/-- C5: the SEI RBSP is exactly
`[0x05] ++ 0xFF^(size/255) ++ [size % 255] ++ uuid ++ text ++ [0x80]` with
`size = 16 + len(text)` and uuid the ASCII bytes of `TIGAS-SEI-000001`;
the H.264 NAL is `[0x06] ++ rbsp`, the HEVC NAL `[0x4E, 0x01] ++ rbsp`;
Annex-B framing puts `[0,0,0,1]` and length-prefixed framing the
big-endian uint32 NAL length in front of the NAL. -/
theorem sei_bytes_spec (m : FrameMetadata) :
    build_sei_rbsp m =
      [0x05] ++ List.replicate ((16 + (strBytes (sei_text m)).length) / 255) 0xFF ++
        [(16 + (strBytes (sei_text m)).length) % 255] ++
        strBytes ("TIGAS-SEI-000001") ++ strBytes (sei_text m) ++ [0x80] ∧
    build_sei_nal_payload m CodecId.h264 = [0x06] ++ build_sei_rbsp m ∧
    build_sei_nal_payload m CodecId.hevc = [0x4E, 0x01] ++ build_sei_rbsp m ∧
    (∀ c : CodecId, build_sei_nal_annexb m c =
      [0x00, 0x00, 0x00, 0x01] ++ build_sei_nal_payload m c) ∧
    (∀ c : CodecId, build_sei_nal_with_length m c =
      be32 (build_sei_nal_payload m c).length ++ build_sei_nal_payload m c) := by
  refine ⟨?_, rfl, rfl, fun c => rfl, fun c => rfl⟩
  unfold build_sei_rbsp
  dsimp only
  rw [sei_size_bytes_eq]
  have huuid : sei_uuid = strBytes ("TIGAS-SEI-000001") := by decide
  rw [huuid]
  simp [List.append_assoc]

/-- C4: the PTS values of successive `encode_frame` calls form exactly the
sequence `0, 1, 2, …` — strictly increasing, starting at 0, step 1, each
value used once — in the codec time base `1/fps`. -/
theorem pts_sequence (n : Nat) (cfg : EncodeConfig) :
    pts_trace n = (List.range n).map (fun k : Nat => (k : Int)) ∧
    List.Pairwise (fun a b => a < b) (pts_trace n) ∧
    (pts_trace n).Nodup ∧
    configure_codec_time_base cfg = (1, cfg.fps) := by
  have h : pts_trace n = (List.range n).map (fun k : Nat => (k : Int)) := by
    unfold pts_trace next_pts_init
    rw [pts_from_eq]
    simp
  have hpw : List.Pairwise (fun a b : Int => a < b) (pts_trace n) := by
    rw [h]
    exact (List.pairwise_lt_range n).map _ (fun a b hab => by exact_mod_cast hab)
  exact ⟨h, hpw, hpw.imp (fun hab => ne_of_lt hab), rfl⟩

/-- C1 counterexample: the FFV1 encoder attaches no SEI side data and
prepends no SEI NAL, so an FFV1 packet carries no in-band
`frame_id/timestamp_ms` record, refuting the claim for the lossless
encoder. -/
theorem ffv1_no_inband_record :
    has_inband_record ⟨0, 0⟩
      (encode_frame_packet true true ⟨0, 0⟩ CodecId.ffv1 [0, 0, 0, 1, 66]) = false := by
  decide

theorem rbsp_contains_record (m : FrameMetadata) (pre post : List Nat) :
    bytesContain (build_sei_user_data_payload m) (pre ++ build_sei_rbsp m ++ post) = true := by
  unfold build_sei_rbsp build_sei_user_data_payload
  dsimp only
  have h := bytesContain_of_append (sei_uuid ++ strBytes (sei_text m))
    (pre ++ [5] ++ sei_size_bytes (16 + (strBytes (sei_text m)).length)) ([0x80] ++ post)
  simpa [List.append_assoc] using h

/-- C1 (amended): for every H.264/HEVC packet the encoder emits, a
recoverable in-band record `frame_id=F;timestamp_ms=T` is attached — as
frame side data when native injection succeeds, else as a prepended SEI
NAL (given the packet allocation succeeds); the FFV1 encoder's packets
pass through with no side data and no prepended record. -/
theorem h264_hevc_inband_record (m : FrameMetadata) (c : CodecId) (pkt : List Nat)
    (attach_ok alloc_ok : Bool)
    (hc : c = CodecId.h264 ∨ c = CodecId.hevc)
    (hok : attach_ok = true ∨ alloc_ok = true) :
    has_inband_record m (encode_frame_packet attach_ok alloc_ok m c pkt) = true ∧
    encode_frame_packet attach_ok alloc_ok m CodecId.ffv1 pkt =
      ⟨none, pkt⟩ := by
  constructor
  · unfold encode_frame_packet attach_sei_side_data
    rw [if_pos hc]
    cases attach_ok with
    | true =>
      simp only [if_true]
      unfold has_inband_record
      simp
    | false =>
      have halloc : alloc_ok = true := by
        rcases hok with h | h
        · exact absurd h (by simp)
        · exact h
      subst halloc
      simp only [Bool.false_eq_true, if_false]
      unfold has_inband_record prepend_sei_packet
      dsimp only
      rw [if_pos hc, if_pos rfl]
      rcases hc with hc | hc <;> subst hc <;>
        cases hb : packet_is_annexb pkt <;>
          simp only [if_true, if_false, Bool.false_eq_true] <;>
            rw [Bool.or_eq_true] <;> right
      · unfold build_sei_nal_with_length build_sei_nal_payload
        have h := rbsp_contains_record m
          (be32 ((if CodecId.h264 = CodecId.hevc then [0x4E, 0x01] else [0x06]) ++
            build_sei_rbsp m).length ++
            (if CodecId.h264 = CodecId.hevc then [0x4E, 0x01] else [0x06])) pkt
        simpa [List.append_assoc] using h
      · unfold build_sei_nal_annexb build_sei_nal_payload
        have h := rbsp_contains_record m
          ([0x00, 0x00, 0x00, 0x01] ++
            (if CodecId.h264 = CodecId.hevc then [0x4E, 0x01] else [0x06])) pkt
        simpa [List.append_assoc] using h
      · unfold build_sei_nal_with_length build_sei_nal_payload
        have h := rbsp_contains_record m
          (be32 ((if CodecId.hevc = CodecId.hevc then [0x4E, 0x01] else [0x06]) ++
            build_sei_rbsp m).length ++
            (if CodecId.hevc = CodecId.hevc then [0x4E, 0x01] else [0x06])) pkt
        simpa [List.append_assoc] using h
      · unfold build_sei_nal_annexb build_sei_nal_payload
        have h := rbsp_contains_record m
          ([0x00, 0x00, 0x00, 0x01] ++
            (if CodecId.hevc = CodecId.hevc then [0x4E, 0x01] else [0x06])) pkt
        simpa [List.append_assoc] using h
  · have ha : attach_sei_side_data attach_ok m CodecId.ffv1 = (none, false) := by
      unfold attach_sei_side_data
      rw [if_neg (by decide)]
    unfold encode_frame_packet
    rw [ha]
    rw [if_neg (by simp)]
    unfold prepend_sei_packet
    rw [if_neg (by decide)]

/-- Witness for `h264_hevc_inband_record` on an H.264 packet with native
injection succeeding. -/
theorem h264_hevc_inband_record_witness :
    has_inband_record ⟨0, 0⟩
      (encode_frame_packet true true ⟨0, 0⟩ CodecId.h264 []) = true ∧
    encode_frame_packet true true ⟨0, 0⟩ CodecId.ffv1 [] = ⟨none, []⟩ :=
  h264_hevc_inband_record ⟨0, 0⟩ CodecId.h264 [] true true (Or.inl rfl) (Or.inl rfl)

theorem ladder_loop_enumFrom (a : MainArgs) (hlive : a.live_dash = false) :
    ∀ (rest : List Int) (idx : Nat),
      ladder_loop a idx rest =
        ((List.enumFrom idx rest).filter (fun p => decide (p.2 ≠ a.crf))).map
          (fun p => "test_stream_lossy_p" ++ toString p.1 ++ ".mp4") := by
  intro rest
  induction rest with
  | nil => intro idx; rfl
  | cons c cs ih =>
    intro idx
    unfold ladder_loop
    rw [if_neg (by simp [hlive])]
    rw [List.enumFrom_cons, List.filter_cons]
    by_cases hc : c = a.crf
    · rw [if_pos hc, if_neg (by simp [hc]), ih (idx + 1)]
    · rw [if_neg hc, if_pos (by simp [hc]), List.map_cons, ih (idx + 1)]

/-- C9: with live-DASH on, neither the lossless encoder
(`ground_truth_lossless.mkv`) nor any CRF-ladder encoder is constructed,
even when a ladder is supplied; with live-DASH off, one ladder encoder
writing `test_stream_lossy_p<i>.mp4` is constructed for every ladder entry
`i` whose CRF differs from the base CRF, entries equal to the base CRF
being skipped. -/
theorem encoder_plan (a : MainArgs) :
    lossless_encoder_path a =
      (if a.live_dash then none else some ("ground_truth_lossless.mkv")) ∧
    ladder_encoder_paths a =
      (if a.live_dash then []
       else (a.crf_ladder.enum.filter (fun p => decide (p.2 ≠ a.crf))).map
         (fun p => "test_stream_lossy_p" ++ toString p.1 ++ ".mp4")) := by
  refine ⟨rfl, ?_⟩
  cases hlive : a.live_dash with
  | true =>
    rw [if_pos rfl]
    unfold ladder_encoder_paths
    cases h : a.crf_ladder with
    | nil => rfl
    | cons c cs =>
      unfold ladder_loop
      rw [if_pos (by simp [hlive])]
  | false =>
    rw [if_neg (by simp)]
    unfold ladder_encoder_paths
    rw [ladder_loop_enumFrom a hlive a.crf_ladder 0]
    rfl

/-- Witness for `encoder_plan` on the spec's CRF-ladder scenario
(`26,28,30`, base 26): entries 1 and 2 produce ladder files, entry 0 is
skipped; with live-DASH on, nothing is constructed. -/
theorem encoder_plan_witness :
    ladder_encoder_paths ⟨26, [26, 28, 30], false⟩ =
      ["test_stream_lossy_p1.mp4", "test_stream_lossy_p2.mp4"] ∧
    ladder_encoder_paths ⟨26, [26, 28, 30], true⟩ = [] ∧
    lossless_encoder_path ⟨26, [26, 28, 30], true⟩ = none := by
  refine ⟨?_, ?_, ?_⟩
  · rw [(encoder_plan ⟨26, [26, 28, 30], false⟩).2]
    decide
  · rw [(encoder_plan ⟨26, [26, 28, 30], true⟩).2]
    decide
  · rw [(encoder_plan ⟨26, [26, 28, 30], true⟩).1]
    decide

end Tigas
